import Mathlib

/-!
Verification development for `polanyi/pyscf.py` (PySCF geometry
optimization interface of the polanyi package).

The file gives a shallow embedding of the functions of `pyscf.py`:
pure data (energies, gradients, coordinates) is modelled over `ℚ`,
filesystem state is passed explicitly, and the external collaborators
(the xtb evaluator `run_xtb`/`parse_engrad`, the `XTBCalculator`
single-point method, the EVB secular solver `evb_eigenvalues`, and the
generic pyscf/geomeTRIC optimizer) are abstracted as oracle function
parameters, since their code lives outside this module and the claims
under study are structural facts about `pyscf.py` itself.
-/

set_option autoImplicit false

namespace Polanyi

/-- A per-atom gradient or coordinate block: rows of rationals,
mirroring the `Array2D` numpy arrays of the source. -/
abbrev Array2D : Type := List (List ℚ)

/-- Modelled from the spec: the fixed Bohr→Angstrom multiplicative
constant imported from `polanyi.data` (whose source is not part of this
module); its defining property used here is that it is one single
constant applied at every evaluator boundary. -/
def BOHR_TO_ANGSTROM : ℚ := 52917721092 / 100000000000

/-- `mol.atom_coords() * BOHR_TO_ANGSTROM`: elementwise scaling of the
optimizer-native (Bohr) coordinates into Angstrom. -/
def scaleCoords (coords : Array2D) : Array2D :=
  coords.map (fun row => row.map (fun x => x * BOHR_TO_ANGSTROM))

/-- `energies[-1] += e_shift`: add `e_shift` to the last element of the
list, leaving every other element unchanged (on the empty list the
Python statement would raise `IndexError`; the embedding returns `[]`,
a case never reached since at least one diabatic state is present). -/
def shiftLast (e_shift : ℚ) : List ℚ → List ℚ
  | [] => []
  | [x] => [x + e_shift]
  | x :: y :: xs => x :: shiftLast e_shift (y :: xs)

theorem shiftLast_concat (e_shift : ℚ) (l : List ℚ) (x : ℚ) :
    shiftLast e_shift (l ++ [x]) = l ++ [x + e_shift] := by
  induction l with
  | nil => rfl
  | cons a l ih =>
    cases l with
    | nil => rfl
    | cons b l => simpa [shiftLast] using ih

/-- `shiftLast` keeps the initial segment and shifts exactly the last
entry. -/
theorem shiftLast_eq_dropLast_append (e_shift : ℚ) (l : List ℚ) :
    shiftLast e_shift l =
      l.dropLast ++ ((l.getLast?.map (fun x => x + e_shift)).toList) := by
  rcases List.eq_nil_or_concat l with rfl | ⟨l', x, rfl⟩
  · rfl
  · simp [List.concat_eq_append, shiftLast_concat, List.dropLast_concat,
      List.getLast?_concat]

theorem length_shiftLast (e_shift : ℚ) (l : List ℚ) :
    (shiftLast e_shift l).length = l.length := by
  rcases List.eq_nil_or_concat l with rfl | ⟨l', x, rfl⟩
  · rfl
  · simp [shiftLast_concat]

theorem shiftLast_getLast? (e_shift : ℚ) (l : List ℚ) :
    (shiftLast e_shift l).getLast? = l.getLast?.map (fun x => x + e_shift) := by
  rcases List.eq_nil_or_concat l with rfl | ⟨l', x, rfl⟩
  · rfl
  · simp [shiftLast_concat, List.getLast?_concat]

theorem shiftLast_dropLast (e_shift : ℚ) (l : List ℚ) :
    (shiftLast e_shift l).dropLast = l.dropLast := by
  rcases List.eq_nil_or_concat l with rfl | ⟨l', x, rfl⟩
  · rfl
  · simp [shiftLast_concat, List.dropLast_concat]

/-- Output record of the external secular solver `evb_eigenvalues`
(from `polanyi.evb`, outside this module): ordered adiabatic energies,
adiabatic gradients, and the diabatic→adiabatic index mapping. The
solver itself is abstracted as an oracle of this return type. -/
structure EvbResult where
  energies_ad : List ℚ
  gradients_ad : List Array2D
  indices : List ℕ
deriving DecidableEq

/-- `OptResults`: the trajectory accumulator dataclass, six per-step
lists plus captured diagnostic text. -/
structure OptResults where
  coordinates : List Array2D := []
  energies_diabatic : List (List ℚ) := []
  energies_adiabatic : List (List ℚ) := []
  gradients_diabatic : List (List Array2D) := []
  gradients_adiabatic : List (List Array2D) := []
  indices : List (List ℕ) := []
  stdout : String := ""
  stderr : String := ""
deriving DecidableEq

/-- State of one per-diabatic-state xtb working directory: whether the
directory exists and, if present, the bytes of its `gfnff_topo` file
(`β` is the type of topology blobs). -/
structure XtbDir (β : Type) where
  present : Bool := false
  topo : Option β := none
deriving DecidableEq

/-- The staging step of the evaluator loop:
`xtb_path.mkdir(exist_ok=True)` followed by writing `gfnff_topo` only
when the file does not already exist. -/
def stageDir {β : Type} (d : XtbDir β) (topology : β) : XtbDir β :=
  let d' : XtbDir β := { d with present := true }
  match d'.topo with
  | none => { d' with topo := some topology }
  | some _ => d'

/-- Staging applied across all per-state directories (directory `i`
belongs to topology `i`; indices beyond the topology list are other
parts of the filesystem and stay untouched). -/
def stageAll {β : Type} (topologies : List β) (dirs : ℕ → XtbDir β) :
    ℕ → XtbDir β :=
  fun i =>
    match topologies.get? i with
    | some t => stageDir (dirs i) t
    | none => dirs i

theorem stageDir_present {β : Type} (d : XtbDir β) (t : β) :
    (stageDir d t).present = true := by
  cases h : d.topo <;> simp [stageDir, h]

theorem stageDir_of_topo_some {β : Type} (p : Bool) (b t : β) :
    stageDir (⟨p, some b⟩ : XtbDir β) t = ⟨true, some b⟩ := rfl

theorem stageDir_of_topo_none {β : Type} (p : Bool) (t : β) :
    stageDir (⟨p, none⟩ : XtbDir β) t = ⟨true, some t⟩ := rfl

theorem stageDir_topo_eq {β : Type} (d : XtbDir β) (b t : β)
    (h : d.topo = some b) : (stageDir d t).topo = some b := by
  cases d with
  | mk p o => cases h; rfl

theorem stageDir_idem {β : Type} (d : XtbDir β) (t : β) :
    stageDir (stageDir d t) t = stageDir d t := by
  cases d with
  | mk p o => cases o <;> rfl

theorem stageAll_idem {β : Type} (topologies : List β)
    (dirs : ℕ → XtbDir β) :
    stageAll topologies (stageAll topologies dirs) = stageAll topologies dirs := by
  funext i
  unfold stageAll
  cases h : topologies.get? i <;> simp [h, stageDir_idem]

/-- Everything a single invocation of the command-line TS surface
bridge `e_g_function` produces: the `(energy, gradient)` pair handed
back to the optimizer, the updated filesystem and accumulator, and a
trace of the interactions with the external collaborators (the
coordinates handed to each evaluator, the raw evaluator energies, and
the energies/gradients passed to `evb_eigenvalues`). -/
structure BridgeOut (β : Type) where
  value : ℚ × Array2D
  dirs : ℕ → XtbDir β
  results : OptResults
  evalCoords : List Array2D
  evalEnergies : List ℚ
  solverEnergies : List ℚ
  solverGradients : List Array2D

/-- Shallow embedding of `e_g_function` (pyscf.py lines 66–147), the
command-line TS surface bridge, for the caller-supplied-path case in
which the per-state staging directories persist across invocations.
`evalxtb i c` abstracts `run_xtb` + `parse_engrad` for state `i` at
Angstrom coordinates `c`; `evb` abstracts `evb_eigenvalues`. -/
def e_g_function {β : Type}
    (evalxtb : ℕ → Array2D → ℚ × Array2D)
    (evb : List ℚ → List Array2D → ℚ → EvbResult)
    (topologies : List β)
    (e_shift coupling : ℚ)
    (molCoords : Array2D)
    (dirs : ℕ → XtbDir β)
    (results : OptResults) : BridgeOut β :=
  let coordinates := scaleCoords molCoords
  let dirs2 := stageAll topologies dirs
  let raw := (List.range topologies.length).map (fun i => evalxtb i coordinates)
  let energies0 := raw.map Prod.fst
  let gradients := raw.map Prod.snd
  let energies := shiftLast e_shift energies0
  let r := evb energies gradients coupling
  { value := (r.energies_ad.getD 1 0, r.gradients_ad.getD 1 []),
    dirs := dirs2,
    results := { coordinates := results.coordinates ++ [coordinates],
                 energies_diabatic := results.energies_diabatic ++ [energies],
                 energies_adiabatic := results.energies_adiabatic ++ [r.energies_ad],
                 gradients_diabatic := results.gradients_diabatic ++ [gradients],
                 gradients_adiabatic := results.gradients_adiabatic ++ [r.gradients_ad],
                 indices := results.indices ++ [r.indices],
                 stdout := results.stdout,
                 stderr := results.stderr },
    evalCoords := (List.range topologies.length).map (fun _ => coordinates),
    evalEnergies := energies0,
    solverEnergies := energies,
    solverGradients := gradients }

/-- Output record of one invocation of `e_g_function_python` (no
filesystem staging: the xtb-python calculators hold their own state). -/
structure PyBridgeOut where
  value : ℚ × Array2D
  results : OptResults
  evalCoords : List Array2D
  evalEnergies : List ℚ
  solverEnergies : List ℚ
  solverGradients : List Array2D

/-- Shallow embedding of `e_g_function_python` (pyscf.py lines
232–281), the xtb-python TS surface bridge. Each calculator is
abstracted as a single-point oracle from Angstrom coordinates to an
`(energy, gradient)` pair. -/
def e_g_function_python
    (calculators : List (Array2D → ℚ × Array2D))
    (evb : List ℚ → List Array2D → ℚ → EvbResult)
    (e_shift coupling : ℚ)
    (molCoords : Array2D)
    (results : OptResults) : PyBridgeOut :=
  let coordinates := scaleCoords molCoords
  let raw := calculators.map (fun sp => sp coordinates)
  let energies0 := raw.map Prod.fst
  let gradients := raw.map Prod.snd
  let energies := shiftLast e_shift energies0
  let r := evb energies gradients coupling
  { value := (r.energies_ad.getD 1 0, r.gradients_ad.getD 1 []),
    results := { coordinates := results.coordinates ++ [coordinates],
                 energies_diabatic := results.energies_diabatic ++ [energies],
                 energies_adiabatic := results.energies_adiabatic ++ [r.energies_ad],
                 gradients_diabatic := results.gradients_diabatic ++ [gradients],
                 gradients_adiabatic := results.gradients_adiabatic ++ [r.gradients_ad],
                 indices := results.indices ++ [r.indices],
                 stdout := results.stdout,
                 stderr := results.stderr },
    evalCoords := calculators.map (fun _ => coordinates),
    evalEnergies := energies0,
    solverEnergies := energies,
    solverGradients := gradients }

/-- A run of the generic optimizer against the command-line bridge:
the optimizer invokes `e_g_function` once at each geometry of `geoms`
(the plan covers accepted steps and line-search sub-evaluations alike),
threading filesystem and accumulator state. The final `ℕ` counts the
individual evaluator (xtb) invocations made. -/
def runBridge {β : Type}
    (evalxtb : ℕ → Array2D → ℚ × Array2D)
    (evb : List ℚ → List Array2D → ℚ → EvbResult)
    (topologies : List β) (e_shift coupling : ℚ) :
    List Array2D → (ℕ → XtbDir β) → OptResults → (ℕ → XtbDir β) × OptResults × ℕ
  | [], dirs, results => (dirs, results, 0)
  | g :: gs, dirs, results =>
    let out := e_g_function evalxtb evb topologies e_shift coupling g dirs results
    let rest := runBridge evalxtb evb topologies e_shift coupling gs out.dirs out.results
    (rest.1, rest.2.1, out.evalCoords.length + rest.2.2)

/-- A run of the generic optimizer against the xtb-python bridge. -/
def runBridgePython
    (calculators : List (Array2D → ℚ × Array2D))
    (evb : List ℚ → List Array2D → ℚ → EvbResult)
    (e_shift coupling : ℚ) :
    List Array2D → OptResults → OptResults × ℕ
  | [], results => (results, 0)
  | g :: gs, results =>
    let out := e_g_function_python calculators evb e_shift coupling g results
    let rest := runBridgePython calculators evb e_shift coupling gs out.results
    (rest.1, out.evalCoords.length + rest.2)

/-- The two pyscf geometry solvers a TS driver can bind. -/
inductive PySCFSolver where
  | berny
  | geometric
deriving DecidableEq

/-- The solver-selection conditional of `ts_from_gfnff` /
`ts_from_gfnff_python` (pyscf.py lines 353–356 and 403–406): an
`if`/`elif` chain with no `else` branch, so any other string leaves the
local variable `pyscf_solver` unbound (`none`). -/
def select_pyscf_solver (solver : String) : Option PySCFSolver :=
  if solver = "pyberny" then some PySCFSolver.berny
  else if solver = "geometric" then some PySCFSolver.geometric
  else none

/-- Shallow embedding of `ts_from_gfnff` (pyscf.py lines 314–367).
`optPlan s` is the sequence of geometries at which the selected solver
invokes the bridge. When `select_pyscf_solver` binds no solver, the
reference to `pyscf_solver` raises `UnboundLocalError` (`Except.error`)
before the optimizer runs, so zero evaluator invocations are made. -/
def ts_from_gfnff {β : Type}
    (evalxtb : ℕ → Array2D → ℚ × Array2D)
    (evb : List ℚ → List Array2D → ℚ → EvbResult)
    (topologies : List β) (e_shift coupling : ℚ)
    (solver : String) (optPlan : PySCFSolver → List Array2D)
    (dirs : ℕ → XtbDir β) : Except Unit OptResults × ℕ :=
  match select_pyscf_solver solver with
  | none => (Except.error (), 0)
  | some s =>
    let r := runBridge evalxtb evb topologies e_shift coupling (optPlan s) dirs {}
    (Except.ok r.2.1, r.2.2)

/-- Shallow embedding of `ts_from_gfnff_python` (pyscf.py lines
370–418), with the same solver-selection conditional. -/
def ts_from_gfnff_python
    (calculators : List (Array2D → ℚ × Array2D))
    (evb : List ℚ → List Array2D → ℚ → EvbResult)
    (e_shift coupling : ℚ)
    (solver : String) (optPlan : PySCFSolver → List Array2D) :
    Except Unit OptResults × ℕ :=
  match select_pyscf_solver solver with
  | none => (Except.error (), 0)
  | some s =>
    let r := runBridgePython calculators evb e_shift coupling (optPlan s) {}
    (Except.ok r.1, r.2)

/-- A geomeTRIC `PySCFEngine` handle. Engines carry mutable evaluator
state (scanners, staged files); `eid` models Python object identity, so
two engine values are the same object exactly when their `eid`s agree. -/
structure Engine where
  eid : ℕ
deriving DecidableEq

/-- `EnginesWrapper` (pyscf.py lines 47–63): a list-like wrapper over
the engine pair handed to geomeTRIC's `ConicalIntersection`. `wid`
models the wrapper's own object identity. -/
structure EnginesWrapper where
  wid : ℕ
  engines : List Engine
deriving DecidableEq

/-- `__getitem__`: index into the wrapped engine list. -/
def EnginesWrapper.getItem (w : EnginesWrapper) (i : ℕ) : Option Engine :=
  w.engines.get? i

/-- `__len__`. -/
def EnginesWrapper.numEngines (w : EnginesWrapper) : ℕ :=
  w.engines.length

/-- `__deepcopy__`: build a new wrapper instance (`fresh` is the
identity Python allocates for it) sharing the same engine instances,
deliberately not copying them. -/
def EnginesWrapper.deepcopy (w : EnginesWrapper) (fresh : ℕ) : EnginesWrapper :=
  { wid := fresh, engines := w.engines }

/-- How the call to `geometric.optimize.run_optimizer` inside
`optimize_ci` terminates: normal return, a raised
`NotConvergedError` (step ceiling), or any other exception (e.g. an
evaluator failure) propagating out. -/
inductive RunOutcome where
  | success
  | notConverged (msg : String)
  | failed
deriving DecidableEq

/-- The two temporary artifacts geomeTRIC may create for an
`optimize_ci` run under the temporary root: `<tmpf>_optim.xyz` and the
`<tmpf>.tmp` directory (`true` = exists). -/
structure MeciFS where
  optimXyz : Bool
  tmpDir : Bool
deriving DecidableEq

/-- `if os.path.exists(f"{tmpf}_optim.xyz"): os.remove(...)`. -/
def removeOptimXyz (fs : MeciFS) : MeciFS :=
  if fs.optimXyz then { fs with optimXyz := false } else fs

/-- `if os.path.exists(f"{tmpf}.tmp"): shutil.rmtree(...)`. -/
def removeTmpDir (fs : MeciFS) : MeciFS :=
  if fs.tmpDir then { fs with tmpDir := false } else fs

/-- Shallow embedding of the termination logic of `optimize_ci`
(pyscf.py lines 608–625). The `try` block catches only
`NotConvergedError`, setting `conv = False`; the artifact-removal
lines sit after the `try`/`except` (there is no `finally`), so an
unexpected exception (`RunOutcome.failed`) propagates with the
filesystem untouched. -/
def optimize_ci (outcome : RunOutcome) (fs : MeciFS) :
    Except Unit Bool × MeciFS :=
  match outcome with
  | RunOutcome.success => (Except.ok true, removeTmpDir (removeOptimXyz fs))
  | RunOutcome.notConverged _ => (Except.ok false, removeTmpDir (removeOptimXyz fs))
  | RunOutcome.failed => (Except.error (), fs)

/-- Shallow embedding of the tail of `ts_from_gfnff_ci_python`
(pyscf.py lines 513–526): `_, opt_mole = optimize_ci(...)` discards the
convergence flag, and only the Bohr→Angstrom-converted coordinates of
the optimized molecule (`optMoleCoords`, in Bohr) are returned. -/
def ts_from_gfnff_ci_python (outcome : RunOutcome) (fs : MeciFS)
    (optMoleCoords : Array2D) : Except Unit Array2D × MeciFS :=
  match optimize_ci outcome fs with
  | (Except.ok _, fs2) => (Except.ok (scaleCoords optMoleCoords), fs2)
  | (Except.error e, fs2) => (Except.error e, fs2)

theorem getD_eq_get {α : Type} (l : List α) (d : α) (n : ℕ) (h : n < l.length) :
    l.getD n d = l.get ⟨n, h⟩ := by
  simp [List.getD_eq_getElem?_getD, List.getElem?_eq_getElem h, List.get_eq_getElem]

/-- The lengths of the six per-step lists of a trajectory
accumulator, in declaration order. -/
def OptResults.listLengths (r : OptResults) : List ℕ :=
  [r.coordinates.length, r.energies_diabatic.length, r.energies_adiabatic.length,
   r.gradients_diabatic.length, r.gradients_adiabatic.length, r.indices.length]

theorem e_g_function_listLengths {β : Type}
    (evalxtb : ℕ → Array2D → ℚ × Array2D)
    (evb : List ℚ → List Array2D → ℚ → EvbResult)
    (topologies : List β) (e_shift coupling : ℚ)
    (molCoords : Array2D) (dirs : ℕ → XtbDir β) (results : OptResults) :
    (e_g_function evalxtb evb topologies e_shift coupling molCoords dirs
        results).results.listLengths = results.listLengths.map Nat.succ := by
  simp [e_g_function, OptResults.listLengths, Nat.succ_eq_add_one]

theorem e_g_function_python_listLengths
    (calculators : List (Array2D → ℚ × Array2D))
    (evb : List ℚ → List Array2D → ℚ → EvbResult)
    (e_shift coupling : ℚ) (molCoords : Array2D) (results : OptResults) :
    (e_g_function_python calculators evb e_shift coupling molCoords
        results).results.listLengths = results.listLengths.map Nat.succ := by
  simp [e_g_function_python, OptResults.listLengths, Nat.succ_eq_add_one]

theorem runBridge_listLengths {β : Type}
    (evalxtb : ℕ → Array2D → ℚ × Array2D)
    (evb : List ℚ → List Array2D → ℚ → EvbResult)
    (topologies : List β) (e_shift coupling : ℚ)
    (geoms : List Array2D) (dirs : ℕ → XtbDir β) (results : OptResults) :
    ((runBridge evalxtb evb topologies e_shift coupling geoms dirs
        results).2.1).listLengths
      = results.listLengths.map (fun x => x + geoms.length) := by
  induction geoms generalizing dirs results with
  | nil =>
    simp [runBridge]
  | cons g gs ih =>
    simp only [runBridge]
    rw [ih, e_g_function_listLengths, List.map_map]
    refine List.map_congr_left ?_
    intro x _
    simp [Function.comp, Nat.succ_eq_add_one]
    omega

theorem runBridgePython_listLengths
    (calculators : List (Array2D → ℚ × Array2D))
    (evb : List ℚ → List Array2D → ℚ → EvbResult)
    (e_shift coupling : ℚ)
    (geoms : List Array2D) (results : OptResults) :
    ((runBridgePython calculators evb e_shift coupling geoms
        results).1).listLengths
      = results.listLengths.map (fun x => x + geoms.length) := by
  induction geoms generalizing results with
  | nil =>
    simp [runBridgePython]
  | cons g gs ih =>
    simp only [runBridgePython]
    rw [ih, e_g_function_python_listLengths, List.map_map]
    refine List.map_congr_left ?_
    intro x _
    simp [Function.comp, Nat.succ_eq_add_one]
    omega

theorem value_eq_get {l : List ℚ} {L : List Array2D}
    (h1 : 1 < l.length) (h2 : 1 < L.length) :
    (l.getD 1 0, L.getD 1 []) = (l.get ⟨1, h1⟩, L.get ⟨1, h2⟩) := by
  rw [getD_eq_get l 0 1 h1, getD_eq_get L [] 1 h2]

/-- Concrete secular-solver oracle used to instantiate theorems with
hypotheses: two adiabatic states regardless of input. -/
def evbX : List ℚ → List Array2D → ℚ → EvbResult :=
  fun _ _ _ => ⟨[10, 20], [[[1]], [[2]]], [0, 1]⟩

/-- Concrete command-line evaluator oracle. -/
def evalxtbX : ℕ → Array2D → ℚ × Array2D :=
  fun _ _ => (3, [[4]])

/-- Concrete initial staging filesystem: nothing staged anywhere. -/
def dirsX : ℕ → XtbDir Unit :=
  fun _ => ⟨false, none⟩

/-- Concrete xtb-python calculator list. -/
def calcX : List (Array2D → ℚ × Array2D) :=
  [fun _ => (5, [[6]])]

/-- Concrete optimizer plan: no bridge invocations. -/
def planX : PySCFSolver → List Array2D :=
  fun _ => []

/-- C1: for every invocation of the surface bridge (`e_g_function`,
`e_g_function_python`) the pair returned to the generic optimizer is
the energy and gradient at index 1 — the first excited state of the
ordered adiabatic records produced by the secular solver
`evb_eigenvalues` on the energies/gradients the bridge passed to it. -/
theorem e_g_function_returns_adiabatic_index_one {β : Type}
    (evalxtb : ℕ → Array2D → ℚ × Array2D)
    (evb : List ℚ → List Array2D → ℚ → EvbResult)
    (topologies : List β) (e_shift coupling : ℚ)
    (molCoords : Array2D) (dirs : ℕ → XtbDir β)
    (results pyResults : OptResults)
    (calculators : List (Array2D → ℚ × Array2D))
    (out : BridgeOut β) (pout : PyBridgeOut)
    (hout : e_g_function evalxtb evb topologies e_shift coupling molCoords dirs results = out)
    (hpout : e_g_function_python calculators evb e_shift coupling molCoords pyResults = pout)
    (h1 : 1 < (evb out.solverEnergies out.solverGradients coupling).energies_ad.length)
    (h2 : 1 < (evb out.solverEnergies out.solverGradients coupling).gradients_ad.length)
    (h3 : 1 < (evb pout.solverEnergies pout.solverGradients coupling).energies_ad.length)
    (h4 : 1 < (evb pout.solverEnergies pout.solverGradients coupling).gradients_ad.length) :
    out.value
      = ((evb out.solverEnergies out.solverGradients coupling).energies_ad.get ⟨1, h1⟩,
         (evb out.solverEnergies out.solverGradients coupling).gradients_ad.get ⟨1, h2⟩)
    ∧ pout.value
      = ((evb pout.solverEnergies pout.solverGradients coupling).energies_ad.get ⟨1, h3⟩,
         (evb pout.solverEnergies pout.solverGradients coupling).gradients_ad.get ⟨1, h4⟩) := by
  subst hout hpout
  exact ⟨value_eq_get h1 h2, value_eq_get h3 h4⟩

/-- Closed instance of the C1 theorem at a concrete two-state solver
oracle. -/
theorem e_g_function_returns_adiabatic_index_one_instance :
    (e_g_function evalxtbX evbX [()] 0 0 [] dirsX {}
      = e_g_function evalxtbX evbX [()] 0 0 [] dirsX {})
    ∧ (1 < (evbX (e_g_function evalxtbX evbX [()] 0 0 [] dirsX {}).solverEnergies
          (e_g_function evalxtbX evbX [()] 0 0 [] dirsX {}).solverGradients 0).energies_ad.length)
    ∧ (e_g_function evalxtbX evbX [()] 0 0 [] dirsX {}).value = (20, [[2]])
    ∧ (e_g_function_python calcX evbX 0 0 [] {}).value = (20, [[2]]) :=
  ⟨rfl, by decide,
   ((e_g_function_returns_adiabatic_index_one evalxtbX evbX [()] 0 0 [] dirsX {} {}
      calcX _ _ rfl rfl (by decide) (by decide) (by decide) (by decide)).1).trans (by decide),
   ((e_g_function_returns_adiabatic_index_one evalxtbX evbX [()] 0 0 [] dirsX {} {}
      calcX _ _ rfl rfl (by decide) (by decide) (by decide) (by decide)).2).trans (by decide)⟩

/-- C2: every surface-bridge invocation appends exactly one entry to
each of the six lists of the trajectory accumulator `OptResults`,
leaving all previously appended entries in place, and after a run of
`n` invocations starting from a fresh accumulator every list has
length exactly `n`. -/
theorem trajectory_accumulator_append_only {β : Type}
    (evalxtb : ℕ → Array2D → ℚ × Array2D)
    (evb : List ℚ → List Array2D → ℚ → EvbResult)
    (topologies : List β) (e_shift coupling : ℚ)
    (molCoords : Array2D) (dirs : ℕ → XtbDir β)
    (results pyResults : OptResults)
    (calculators : List (Array2D → ℚ × Array2D))
    (geoms pyGeoms : List Array2D) :
    (∃ c ed ea gd ga ix,
      (e_g_function evalxtb evb topologies e_shift coupling molCoords dirs results).results
        = { coordinates := results.coordinates ++ [c],
            energies_diabatic := results.energies_diabatic ++ [ed],
            energies_adiabatic := results.energies_adiabatic ++ [ea],
            gradients_diabatic := results.gradients_diabatic ++ [gd],
            gradients_adiabatic := results.gradients_adiabatic ++ [ga],
            indices := results.indices ++ [ix],
            stdout := results.stdout,
            stderr := results.stderr })
    ∧ (∃ c ed ea gd ga ix,
      (e_g_function_python calculators evb e_shift coupling molCoords pyResults).results
        = { coordinates := pyResults.coordinates ++ [c],
            energies_diabatic := pyResults.energies_diabatic ++ [ed],
            energies_adiabatic := pyResults.energies_adiabatic ++ [ea],
            gradients_diabatic := pyResults.gradients_diabatic ++ [gd],
            gradients_adiabatic := pyResults.gradients_adiabatic ++ [ga],
            indices := pyResults.indices ++ [ix],
            stdout := pyResults.stdout,
            stderr := pyResults.stderr })
    ∧ ((runBridge evalxtb evb topologies e_shift coupling geoms dirs {}).2.1.listLengths
        = [geoms.length, geoms.length, geoms.length,
           geoms.length, geoms.length, geoms.length])
    ∧ ((runBridgePython calculators evb e_shift coupling pyGeoms {}).1.listLengths
        = [pyGeoms.length, pyGeoms.length, pyGeoms.length,
           pyGeoms.length, pyGeoms.length, pyGeoms.length]) := by
  refine ⟨⟨_, _, _, _, _, _, rfl⟩, ⟨_, _, _, _, _, _, rfl⟩, ?_, ?_⟩
  · rw [runBridge_listLengths]
    simp [OptResults.listLengths]
  · rw [runBridgePython_listLengths]
    simp [OptResults.listLengths]

/-- C5: evaluator staging is idempotent: every bridge invocation maps
the staging filesystem through `stageAll`; `stageAll` creates each
per-state directory if absent, writes the topology file only when it
does not already exist, never overwrites an existing file, and a
repeated invocation with the same topologies and evaluator state
leaves the staging filesystem unchanged. -/
theorem staging_idempotent {β : Type}
    (evalxtb : ℕ → Array2D → ℚ × Array2D)
    (evb : List ℚ → List Array2D → ℚ → EvbResult)
    (topologies : List β) (e_shift coupling : ℚ)
    (molCoords molCoords2 : Array2D) (dirs : ℕ → XtbDir β)
    (results results2 : OptResults) :
    ((e_g_function evalxtb evb topologies e_shift coupling molCoords dirs results).dirs
        = stageAll topologies dirs)
    ∧ (∀ p t, stageDir (⟨p, none⟩ : XtbDir β) t = ⟨true, some t⟩)
    ∧ (∀ p b t, stageDir (⟨p, some b⟩ : XtbDir β) t = ⟨true, some b⟩)
    ∧ ((e_g_function evalxtb evb topologies e_shift coupling molCoords2
          (e_g_function evalxtb evb topologies e_shift coupling molCoords dirs results).dirs
          results2).dirs
        = (e_g_function evalxtb evb topologies e_shift coupling molCoords dirs results).dirs) := by
  refine ⟨rfl, fun p t => rfl, fun p b t => rfl, ?_⟩
  exact stageAll_idem topologies dirs

/-- C6: in both bridges the configured `e_shift` is added to exactly
the last diabatic state after all evaluator calls: the energy list
handed to the secular solver keeps every state but the last verbatim,
shifts the last by `e_shift`, and the adiabatic record appended to the
accumulator is the solver's output on exactly that shifted list. -/
theorem shift_applied_to_designated_last_state {β : Type}
    (evalxtb : ℕ → Array2D → ℚ × Array2D)
    (evb : List ℚ → List Array2D → ℚ → EvbResult)
    (topologies : List β) (e_shift coupling : ℚ)
    (molCoords : Array2D) (dirs : ℕ → XtbDir β)
    (results pyResults : OptResults)
    (calculators : List (Array2D → ℚ × Array2D)) :
    ((e_g_function evalxtb evb topologies e_shift coupling molCoords dirs results).solverEnergies
      = (e_g_function evalxtb evb topologies e_shift coupling molCoords dirs results).evalEnergies.dropLast
        ++ (((e_g_function evalxtb evb topologies e_shift coupling molCoords dirs results).evalEnergies.getLast?.map
              (fun x => x + e_shift)).toList))
    ∧ ((e_g_function evalxtb evb topologies e_shift coupling molCoords dirs results).solverEnergies.length
      = (e_g_function evalxtb evb topologies e_shift coupling molCoords dirs results).evalEnergies.length)
    ∧ ((e_g_function evalxtb evb topologies e_shift coupling molCoords dirs results).results.energies_adiabatic.getLast?
      = some (evb (e_g_function evalxtb evb topologies e_shift coupling molCoords dirs results).solverEnergies
          (e_g_function evalxtb evb topologies e_shift coupling molCoords dirs results).solverGradients
          coupling).energies_ad)
    ∧ ((e_g_function_python calculators evb e_shift coupling molCoords pyResults).solverEnergies
      = (e_g_function_python calculators evb e_shift coupling molCoords pyResults).evalEnergies.dropLast
        ++ (((e_g_function_python calculators evb e_shift coupling molCoords pyResults).evalEnergies.getLast?.map
              (fun x => x + e_shift)).toList))
    ∧ ((e_g_function_python calculators evb e_shift coupling molCoords pyResults).solverEnergies.length
      = (e_g_function_python calculators evb e_shift coupling molCoords pyResults).evalEnergies.length)
    ∧ ((e_g_function_python calculators evb e_shift coupling molCoords pyResults).results.energies_adiabatic.getLast?
      = some (evb (e_g_function_python calculators evb e_shift coupling molCoords pyResults).solverEnergies
          (e_g_function_python calculators evb e_shift coupling molCoords pyResults).solverGradients
          coupling).energies_ad) :=
  ⟨shiftLast_eq_dropLast_append e_shift _, length_shiftLast e_shift _,
   List.getLast?_concat _,
   shiftLast_eq_dropLast_append e_shift _, length_shiftLast e_shift _,
   List.getLast?_concat _⟩

/-- C7: every evaluator call of both TS bridges receives exactly the
optimizer-native coordinates scaled elementwise by the one constant
`BOHR_TO_ANGSTROM`, and the MECI driver's returned coordinates are the
optimized molecule's coordinates scaled by that same constant. -/
theorem evaluator_coordinates_single_constant {β : Type}
    (evalxtb : ℕ → Array2D → ℚ × Array2D)
    (evb : List ℚ → List Array2D → ℚ → EvbResult)
    (topologies : List β) (e_shift coupling : ℚ)
    (molCoords : Array2D) (dirs : ℕ → XtbDir β)
    (results pyResults : OptResults)
    (calculators : List (Array2D → ℚ × Array2D)) :
    ((e_g_function evalxtb evb topologies e_shift coupling molCoords dirs results).evalCoords
      = List.replicate topologies.length
          (molCoords.map (fun row => row.map (fun v => v * BOHR_TO_ANGSTROM))))
    ∧ ((e_g_function_python calculators evb e_shift coupling molCoords pyResults).evalCoords
      = List.replicate calculators.length
          (molCoords.map (fun row => row.map (fun v => v * BOHR_TO_ANGSTROM))))
    ∧ (∀ fs c, (ts_from_gfnff_ci_python RunOutcome.success fs c).1
        = Except.ok (c.map (fun row => row.map (fun v => v * BOHR_TO_ANGSTROM))))
    ∧ (∀ fs msg c, (ts_from_gfnff_ci_python (RunOutcome.notConverged msg) fs c).1
        = Except.ok (c.map (fun row => row.map (fun v => v * BOHR_TO_ANGSTROM)))) := by
  refine ⟨?_, ?_, fun fs c => rfl, fun fs msg c => rfl⟩
  · show (List.range topologies.length).map (fun _ => scaleCoords molCoords) = _
    simp [List.map_const, scaleCoords]
  · show calculators.map (fun _ => scaleCoords molCoords) = _
    simp [List.map_const, scaleCoords]

/-- C8: `EnginesWrapper.__deepcopy__` shares rather than duplicates the
engine handles: the copy is a distinct wrapper object whose engine list
is the identical one, so every index yields the identical engine
object and the length is unchanged. -/
theorem deepcopy_shares_engine_handles (w : EnginesWrapper) (fresh : ℕ)
    (h : fresh ≠ w.wid) :
    (w.deepcopy fresh).engines = w.engines
    ∧ (∀ i, (w.deepcopy fresh).getItem i = w.getItem i)
    ∧ (w.deepcopy fresh).numEngines = w.numEngines
    ∧ w.deepcopy fresh ≠ w := by
  refine ⟨rfl, fun i => rfl, rfl, ?_⟩
  intro heq
  exact h (congrArg EnginesWrapper.wid heq)

/-- Closed instance of the C8 theorem on a concrete two-engine
wrapper. -/
theorem deepcopy_shares_engine_handles_instance :
    ((1 : ℕ) ≠ (⟨0, [⟨5⟩, ⟨7⟩]⟩ : EnginesWrapper).wid)
    ∧ ((⟨0, [⟨5⟩, ⟨7⟩]⟩ : EnginesWrapper).deepcopy 1).engines
        = (⟨0, [⟨5⟩, ⟨7⟩]⟩ : EnginesWrapper).engines
    ∧ (⟨0, [⟨5⟩, ⟨7⟩]⟩ : EnginesWrapper).deepcopy 1
        ≠ (⟨0, [⟨5⟩, ⟨7⟩]⟩ : EnginesWrapper) :=
  ⟨by decide,
   (deepcopy_shares_engine_handles ⟨0, [⟨5⟩, ⟨7⟩]⟩ 1 (by decide)).1,
   (deepcopy_shares_engine_handles ⟨0, [⟨5⟩, ⟨7⟩]⟩ 1 (by decide)).2.2.2⟩

/-- C9: with a solver string that is neither `"pyberny"` nor
`"geometric"`, the selection `if`/`elif` chain binds nothing, and both
TS drivers fail with an unbound-variable error before a single
evaluator invocation is made. -/
theorem unknown_solver_unbound_before_run {β : Type}
    (evalxtb : ℕ → Array2D → ℚ × Array2D)
    (evb : List ℚ → List Array2D → ℚ → EvbResult)
    (topologies : List β) (e_shift coupling : ℚ)
    (dirs : ℕ → XtbDir β)
    (calculators : List (Array2D → ℚ × Array2D))
    (optPlan optPlanPy : PySCFSolver → List Array2D)
    (solver : String)
    (h1 : solver ≠ "pyberny") (h2 : solver ≠ "geometric") :
    select_pyscf_solver solver = none
    ∧ ts_from_gfnff evalxtb evb topologies e_shift coupling solver optPlan dirs
        = (Except.error (), 0)
    ∧ ts_from_gfnff_python calculators evb e_shift coupling solver optPlanPy
        = (Except.error (), 0) := by
  have hsel : select_pyscf_solver solver = none := by
    simp [select_pyscf_solver, h1, h2]
  refine ⟨hsel, ?_, ?_⟩
  · unfold ts_from_gfnff
    rw [hsel]
  · unfold ts_from_gfnff_python
    rw [hsel]

/-- Closed instance of the C9 theorem at solver string `"berny"`. -/
theorem unknown_solver_unbound_before_run_instance :
    ("berny" ≠ "pyberny")
    ∧ ("berny" ≠ "geometric")
    ∧ select_pyscf_solver "berny" = none
    ∧ ts_from_gfnff evalxtbX evbX [()] 0 0 "berny" planX dirsX
        = (Except.error (), 0)
    ∧ ts_from_gfnff_python calcX evbX 0 0 "berny" planX
        = (Except.error (), 0) :=
  ⟨by decide, by decide,
   (unknown_solver_unbound_before_run evalxtbX evbX [()] 0 0 dirsX calcX planX planX
      "berny" (by decide) (by decide)).1,
   (unknown_solver_unbound_before_run evalxtbX evbX [()] 0 0 dirsX calcX planX planX
      "berny" (by decide) (by decide)).2.1,
   (unknown_solver_unbound_before_run evalxtbX evbX [()] 0 0 dirsX calcX planX planX
      "berny" (by decide) (by decide)).2.2⟩

/-- C10: the diabatic energies recorded in the accumulator are
post-shift values: the entry appended is the very list handed to the
solver, whose last element is the raw evaluator energy plus `e_shift`,
which differs from the raw energy whenever `e_shift ≠ 0`. -/
theorem stored_diabatic_energies_are_post_shift {β : Type}
    (evalxtb : ℕ → Array2D → ℚ × Array2D)
    (evb : List ℚ → List Array2D → ℚ → EvbResult)
    (topologies : List β) (e_shift coupling : ℚ)
    (molCoords : Array2D) (dirs : ℕ → XtbDir β)
    (results pyResults : OptResults)
    (calculators : List (Array2D → ℚ × Array2D))
    (x y : ℚ)
    (hshift : e_shift ≠ 0)
    (hx : (e_g_function evalxtb evb topologies e_shift coupling molCoords dirs
        results).evalEnergies.getLast? = some x)
    (hy : (e_g_function_python calculators evb e_shift coupling molCoords
        pyResults).evalEnergies.getLast? = some y) :
    ((e_g_function evalxtb evb topologies e_shift coupling molCoords dirs results).results.energies_diabatic.getLast?
      = some (e_g_function evalxtb evb topologies e_shift coupling molCoords dirs results).solverEnergies)
    ∧ ((e_g_function evalxtb evb topologies e_shift coupling molCoords dirs results).solverEnergies.getLast?
      = some (x + e_shift))
    ∧ x + e_shift ≠ x
    ∧ ((e_g_function_python calculators evb e_shift coupling molCoords pyResults).results.energies_diabatic.getLast?
      = some (e_g_function_python calculators evb e_shift coupling molCoords pyResults).solverEnergies)
    ∧ ((e_g_function_python calculators evb e_shift coupling molCoords pyResults).solverEnergies.getLast?
      = some (y + e_shift))
    ∧ y + e_shift ≠ y := by
  refine ⟨List.getLast?_concat _, ?_, ?_, List.getLast?_concat _, ?_, ?_⟩
  · show (shiftLast e_shift ((e_g_function evalxtb evb topologies e_shift coupling
        molCoords dirs results).evalEnergies)).getLast? = some (x + e_shift)
    rw [shiftLast_getLast?, hx]
    rfl
  · intro heq
    exact hshift (add_right_eq_self.mp heq)
  · show (shiftLast e_shift ((e_g_function_python calculators evb e_shift coupling
        molCoords pyResults).evalEnergies)).getLast? = some (y + e_shift)
    rw [shiftLast_getLast?, hy]
    rfl
  · intro heq
    exact hshift (add_right_eq_self.mp heq)

/-- Closed instance of the C10 theorem with `e_shift = 1`. -/
theorem stored_diabatic_energies_are_post_shift_instance :
    ((1 : ℚ) ≠ 0)
    ∧ ((e_g_function evalxtbX evbX [()] 1 0 [] dirsX {}).evalEnergies.getLast? = some 3)
    ∧ ((e_g_function_python calcX evbX 1 0 [] {}).evalEnergies.getLast? = some 5)
    ∧ ((e_g_function evalxtbX evbX [()] 1 0 [] dirsX {}).solverEnergies.getLast?
        = some (3 + 1))
    ∧ (3 : ℚ) + 1 ≠ 3 :=
  ⟨by decide, by decide, by decide,
   (stored_diabatic_energies_are_post_shift evalxtbX evbX [()] 1 0 [] dirsX {} {}
      calcX 3 5 (by decide) (by decide) (by decide)).2.1,
   (stored_diabatic_energies_are_post_shift evalxtbX evbX [()] 1 0 [] dirsX {} {}
      calcX 3 5 (by decide) (by decide) (by decide)).2.2.1⟩

/-- C3 counterexample: when `run_optimizer` terminates with an
unexpected exception, `optimize_ci` propagates it and, with both
artifacts present, removes neither `<tmpf>_optim.xyz` nor
`<tmpf>.tmp` — the cleanup lines sit after the `try`/`except` block and
are skipped. -/
theorem optimize_ci_leaves_artifacts_on_unexpected_failure :
    (optimize_ci RunOutcome.failed ⟨true, true⟩).1 = Except.error ()
    ∧ (optimize_ci RunOutcome.failed ⟨true, true⟩).2 = ⟨true, true⟩ :=
  ⟨rfl, rfl⟩

/-- C3 amended: for every `optimize_ci` run that terminates through the
`try`/`except` block — optimizer convergence or the caught step-ceiling
`NotConvergedError` — whichever subset of the two temporary artifacts
exists is removed; on an unexpected exception propagating out, the
artifacts are left untouched. -/
theorem optimize_ci_cleanup_on_caught_paths (fs : MeciFS) (msg : String) :
    (optimize_ci RunOutcome.success fs).2 = ⟨false, false⟩
    ∧ (optimize_ci (RunOutcome.notConverged msg) fs).2 = ⟨false, false⟩
    ∧ (optimize_ci RunOutcome.failed fs).2 = fs := by
  rcases fs with ⟨ox, td⟩
  cases ox <;> cases td <;> exact ⟨rfl, rfl, rfl⟩

/-- C4 counterexample: the TS driver `ts_from_gfnff_ci_python` returns
byte-identical results for a converged run and a step-ceiling
unconverged run, so no convergence-status flag reaches its caller. -/
theorem ts_ci_python_result_carries_no_convergence_flag :
    ts_from_gfnff_ci_python RunOutcome.success ⟨false, false⟩ []
      = ts_from_gfnff_ci_python (RunOutcome.notConverged "maximum iterations") ⟨false, false⟩ [] :=
  rfl

/-- C4 amended: step-ceiling exhaustion never raises: `optimize_ci`
catches `NotConvergedError` and returns an explicit Boolean flag
(`false` instead of `true`); but the TS driver
`ts_from_gfnff_ci_python` discards that flag and returns only the
optimized coordinates, while an unexpected evaluator failure
propagates. -/
theorem nonconvergence_flagged_in_optimize_ci_only (fs : MeciFS)
    (msg : String) (c : Array2D) :
    (optimize_ci (RunOutcome.notConverged msg) fs).1 = Except.ok false
    ∧ (optimize_ci RunOutcome.success fs).1 = Except.ok true
    ∧ (ts_from_gfnff_ci_python (RunOutcome.notConverged msg) fs c).1
        = Except.ok (scaleCoords c)
    ∧ (ts_from_gfnff_ci_python RunOutcome.failed fs c).1 = Except.error () :=
  ⟨rfl, rfl, rfl, rfl⟩

end Polanyi
